import Mathlib

/-!
Verification development for the hydro pipeline repository.

This file gives a shallow embedding, in Lean 4, of the parts of the
repository that the specification claims talk about:

* `config_io.py` — environment-variable resolution, config-value validity,
  the user/default merge, and the save/load round trip
  (Python values are modelled by the inductive `PyVal`, Python dicts by
  association lists with first-key-wins lookup);
* `hydro_analysis.py` — the threshold conversion, and the whole
  orchestrator as a state machine over an abstract GRASS engine
  (commands executed are recorded in a trace; the raster-mask register is
  tracked explicitly);
* `download_dem.py` — the WGS84 bounding-box calculator over the reals.

Python machine floats are modelled by exact arithmetic (ℚ in the threshold
and orchestrator sections, ℝ in the bbox section); every concrete input
used below is chosen so that float and exact evaluation agree.
-/

/-! ## Python value model (config_io.py)

Values that can appear in a loaded YAML configuration: `None`, booleans,
integers, floats, strings, lists and dicts.  (YAML safe loading never
produces Python sets, so sets are not represented.) -/

inductive PyVal where
  | none
  | bool (b : Bool)
  | int (n : ℤ)
  | float (q : ℚ)
  | str (s : String)
  | list (l : List PyVal)
  | dict (l : List (String × PyVal))

/-- Characters stripped by Python str.strip(): space, tab, newline,
carriage return, vertical tab, form feed. -/
def pyIsSpace (c : Char) : Bool :=
  c = ' ' || c = '\t' || c = '\n' || c = '\r' || c = '\x0b' || c = '\x0c'

/-- Model of Python str.strip() on the character list. -/
def pyStripChars (cs : List Char) : List Char :=
  ((cs.dropWhile pyIsSpace).reverse.dropWhile pyIsSpace).reverse

/-- Model of Python str.strip(). -/
def pyStrip (s : String) : String := ⟨pyStripChars s.data⟩

/-- Model of Python str.split(sep) for a one-character separator. -/
def splitChar (sep : Char) : List Char → List (List Char)
  | [] => [[]]
  | c :: rest =>
    let r := splitChar sep rest
    if c = sep then [] :: r
    else
      match r with
      | h :: t => (c :: h) :: t
      | [] => [[c]]

/-- Model of Python str.splitlines() for strip-normalised strings (the
source only ever calls splitlines on the result of strip(), so there is
no trailing newline and the only line separator is the newline
character). -/
def pySplitlines (s : String) : List String :=
  if s.data.isEmpty then [] else (splitChar '\n' s.data).map (fun l => ⟨l⟩)

/-- Body of the regular expression [A-Za-z_][A-Za-z0-9_]* used by
_ENV_VAR_PATTERN: a Python identifier-shaped environment-variable name. -/
def isEnvNameChars : List Char → Bool
  | [] => false
  | c :: cs => (c.isAlpha || c = '_') && cs.all (fun d => d.isAlphanum || d = '_')

/-- Model of the anchored regular expression _ENV_VAR_PATTERN,
matching exactly the strings of the form "$\x7benv:NAME\x7d" and
returning the captured NAME. -/
def envVarMatch (s : String) : Option String :=
  match s.data with
  | '$' :: '\x7b' :: 'e' :: 'n' :: 'v' :: ':' :: rest =>
    match rest.reverse with
    | '\x7d' :: revName =>
      let name := revName.reverse
      if isEnvNameChars name then some (⟨name⟩ : String) else Option.none
    | _ => Option.none
  | _ => Option.none

/-- Embedding of _resolve_env_vars from config_io.py.  The ambient process
environment is passed explicitly as a partial map from variable names to
values; os.getenv(name, "") is (env name).getD "". -/
def resolve_env_vars (env : String → Option String) : PyVal → PyVal
  | .str s =>
    match envVarMatch (pyStrip s) with
    | some name => .str ((env name).getD "")
    | Option.none => .str s
  | v => v

/-- Embedding of _is_valid_config_value from config_io.py. -/
def is_valid_config_value : PyVal → Bool
  | .none => false
  | .str s => !(pyStrip s).data.isEmpty
  | .list l => !l.isEmpty
  | .dict l => !l.isEmpty
  | _ => true

/-- Lookup in an association-list model of a Python dict (first binding
wins; Python dicts have unique keys, so this is exact on dicts that
actually arise).  Returns Option.none when the key is absent. -/
def lookupVal : List (String × PyVal) → String → Option PyVal
  | [], _ => Option.none
  | p :: rest, k => if p.1 = k then some p.2 else lookupVal rest k

/-- Model of Python dict.get(key): the value when present, Python None
when absent — exactly how merge_configs reads both configurations. -/
def pyGet (m : List (String × PyVal)) (k : String) : PyVal :=
  (lookupVal m k).getD .none

/-- Keys of a config dict, in insertion order. -/
def configKeys (m : List (String × PyVal)) : List String := m.map Prod.fst

/-- Embedding of merge_configs from config_io.py: iterate over the union
of the two key sets and, for each key, keep the user value exactly when
_is_valid_config_value accepts it, falling back to default_config.get(key)
otherwise.  (Python iterates the union as an unordered set; the embedding
uses a deterministic duplicate-free enumeration of the same set, which is
equal as a key-to-value mapping.) -/
def merge_configs (user_config default_config : List (String × PyVal)) :
    List (String × PyVal) :=
  ((configKeys default_config ++ configKeys user_config).dedup).map
    (fun k =>
      (k, if is_valid_config_value (pyGet user_config k) then pyGet user_config k
          else pyGet default_config k))

/-- Embedding of the dict-level content of save_config from config_io.py
with its default minimal_output=True: the dataclass is serialised as its
field dict (asdict) and only fields passing _is_valid_config_value are
written.  YAML scalar serialisation itself is faithful (safe_dump then
safe_load is the identity on the values modelled here), so it is not
re-modelled. -/
def save_config (config : List (String × PyVal)) : List (String × PyVal) :=
  config.filter (fun p => is_valid_config_value p.2)

/-- Embedding of the dict-level content of _load_single_config from
config_io.py: every loaded value goes through _resolve_env_vars. -/
def load_single_config (env : String → Option String)
    (raw : List (String × PyVal)) : List (String × PyVal) :=
  raw.map (fun p => (p.1, resolve_env_vars env p.2))

/-- Save-then-reload-merged-against-an-empty-default, the composite
operation of the round-trip claim: save_config, then _load_single_config
on what was written, then merge_configs against an empty default (the
field extraction done by Config(**merged) is the identity on the field
dict and is not re-modelled). -/
def save_then_reload (env : String → Option String)
    (config : List (String × PyVal)) : List (String × PyVal) :=
  merge_configs (load_single_config env (save_config config)) []

/-! ## Threshold conversion (hydro_analysis.py, _calculate_threshold) -/

/-- Model of Python int() applied to a float value, here over exact
rationals: truncation toward zero. -/
def pyInt (q : ℚ) : ℤ := if 0 ≤ q then ⌊q⌋ else ⌈q⌉

/-- Embedding of the computational core of _calculate_threshold from
hydro_analysis.py: seuil = max(1, int(threshold_km2 * 1_000_000.0 /
(ewres * nsres))).  The resolutions are the region values parsed by the
surrounding g.region call (modelled in the orchestrator section). -/
def calculate_threshold (threshold_km2 ewres nsres : ℚ) : ℤ :=
  let cell_area := ewres * nsres
  max 1 (pyInt (threshold_km2 * 1000000 / cell_area))

/-- Formula stated by the spec for the threshold conversion, written from
the words of the spec for comparison with the source function:
cells = max(1, round(threshold_km2 × 1,000,000 / (ew_resolution ×
ns_resolution))). -/
def spec_threshold_cells (threshold_km2 ewres nsres : ℚ) : ℤ :=
  max 1 (round (threshold_km2 * 1000000 / (ewres * nsres)))

/-! ## WGS84 bounding box (download_dem.py, calculate_bbox_wgs84)

This is the one part of the code whose claims are about transcendental
arithmetic (np.cos), so it is modelled over ℝ. -/

/-- Kilometres-per-degree constant from calculate_bbox_wgs84. -/
noncomputable def EARTH_DEGREE_KM : ℝ := 111

/-- Embedding of calculate_bbox_wgs84 from download_dem.py; np.radians is
multiplication by π/180 and np.cos is Real.cos.  Returns
(west, south, east, north). -/
noncomputable def calculate_bbox_wgs84 (lat lon size_km : ℝ) : ℝ × ℝ × ℝ × ℝ :=
  let dlat := size_km / EARTH_DEGREE_KM
  let coslat := Real.cos (lat * (Real.pi / 180))
  let dlon := size_km / (EARTH_DEGREE_KM * max coslat 0.01)
  (lon - dlon, lat - dlat, lon + dlon, lat + dlat)

/-- Formula stated by the spec for the bbox calculator, written from the
words of the spec for comparison with the source function: latitude delta
= half-width / 111.0, longitude delta = half-width / (111.0 ×
max(cos(latitude_in_radians), 0.01)), box = (lon − dlon, lat − dlat,
lon + dlon, lat + dlat). -/
noncomputable def spec_bbox (lat lon half_width : ℝ) : ℝ × ℝ × ℝ × ℝ :=
  (lon - half_width / (111.0 * max (Real.cos (lat * (Real.pi / 180))) 0.01),
   lat - half_width / 111.0,
   lon + half_width / (111.0 * max (Real.cos (lat * (Real.pi / 180))) 0.01),
   lat + half_width / 111.0)

/-! ## Orchestrator (hydro_analysis.py, analyse_hydro_grass)

The GRASS engine is abstract: an Engine says which module invocations
raise GrassError, what the region query reports, what the v.distance
query prints, and what the pyproj coordinate transformation returns.  The
run threads a session state recording the invocation trace, the raster
mask register, the log, and the CSV files written. -/

/-- One engine invocation: the GRASS module name and the named arguments
the source passes (flag letters are recorded as a ("flags", letters)
argument; the overwrite/quiet housekeeping options are not recorded). -/
structure Cmd where
  name : String
  args : List (String × String)
deriving DecidableEq

/-- Session state threaded through the run: the trace of engine
invocations in order, the raster-mask register, the log lines (level and
format string — interpolated values are elided), and the CSV files
written (path and content). -/
structure GState where
  trace : List Cmd
  mask : Option String
  log : List (String × String)
  filesWritten : List (String × String)
deriving DecidableEq

/-- Abstract GRASS engine behind the gi.grass handle: which module
invocations raise GrassError (by module name, uniform over a run), the
ewres/nsres resolution the g.region -g query reports (already parsed, as
the source parses them with float()), the text printed by the v.distance
query (None possible — the source guards with `out or ""`), and the
pyproj always_xy transformation from (lon, lat) to projected (x, y). -/
structure Engine where
  fails : String → Option String
  region_ewres : ℚ
  region_nsres : ℚ
  v_distance_out : Option String
  transform : ℚ → ℚ → ℚ × ℚ

/-- Python exceptions observable from the orchestrator. -/
inductive PyErr where
  | grassError (msg : String)
  | valueError (msg : String)
  | indexError (msg : String)
  | zeroDivisionError (msg : String)
  | runtimeError (msg : String)
deriving DecidableEq

/-- Message text of an exception (Python str(e)). -/
def PyErr.msg : PyErr → String
  | .grassError m => m
  | .valueError m => m
  | .indexError m => m
  | .zeroDivisionError m => m
  | .runtimeError m => m

/-- Result of a stage: a value plus the resulting state, or an exception
plus the state at the point it was raised. -/
inductive StepRes (α : Type) where
  | ok (a : α) (s : GState)
  | err (e : PyErr) (s : GState)

/-- Sequencing of stages: exceptions propagate. -/
def StepRes.bind {α β : Type} : StepRes α → (α → GState → StepRes β) → StepRes β
  | .ok a s, f => f a s
  | .err e s, _ => .err e s

/-- State carried by a result, whether or not an exception was raised. -/
def StepRes.state {α : Type} : StepRes α → GState
  | .ok _ s => s
  | .err _ s => s

/-- Model of the engine's r.mask semantics on the session mask register:
r.mask with a vector argument installs that vector as the raster mask,
r.mask -r removes the mask, every other module leaves it unchanged. -/
def maskEffect (c : Cmd) (m : Option String) : Option String :=
  if c.name = "r.mask" then
    if ("flags", "r") ∈ c.args then Option.none
    else
      match c.args.find? (fun p => p.1 == "vector") with
      | some p => some p.2
      | Option.none => m
  else m

/-- Embedding of g.run_command: the invocation is recorded in the trace;
on success the mask semantics applies, on engine failure GrassError is
raised. -/
def run_command (eng : Engine) (c : Cmd) (s : GState) : StepRes Unit :=
  match eng.fails c.name with
  | some m => .err (.grassError m) { s with trace := s.trace ++ [c] }
  | Option.none =>
    .ok () { s with trace := s.trace ++ [c], mask := maskEffect c s.mask }

/-- Embedding of g.read_command for the v.distance query: the invocation
is recorded and the engine's printed output is returned. -/
def read_command (eng : Engine) (c : Cmd) (s : GState) : StepRes (Option String) :=
  match eng.fails c.name with
  | some m => .err (.grassError m) { s with trace := s.trace ++ [c] }
  | Option.none => .ok eng.v_distance_out { s with trace := s.trace ++ [c] }

/-- Embedding of g.parse_command("g.region", flags="g") followed by the
float() parses of region["ewres"] and region["nsres"]. -/
def parse_command_region (eng : Engine) (s : GState) : StepRes (ℚ × ℚ) :=
  match eng.fails "g.region" with
  | some m => .err (.grassError m)
      { s with trace := s.trace ++ [⟨"g.region", [("flags", "g")]⟩] }
  | Option.none => .ok (eng.region_ewres, eng.region_nsres)
      { s with trace := s.trace ++ [⟨"g.region", [("flags", "g")]⟩] }

/-- Appends one log line. -/
def logMsg (level msg : String) (s : GState) : GState :=
  { s with log := s.log ++ [(level, msg)] }

/-- Model of os.path.dirname for slash-separated paths. -/
def pyDirname (p : String) : String :=
  String.intercalate "/" (((splitChar '/' p.data).dropLast).map (fun l => (⟨l⟩ : String)))

/-- Numeric value of a digit string, None when a non-digit appears. -/
def digitsVal : List Char → Option ℕ
  | [] => some 0
  | c :: cs =>
    if c.isDigit then (digitsVal cs).map (fun n => (c.toNat - 48) * 10 ^ cs.length + n)
    else Option.none

/-- Model of Python float() on the decimal-notation strings the engine
prints: optional surrounding whitespace, optional sign, integer part,
optional fractional part (scientific notation and the inf/nan spellings
do not occur in the modelled outputs and are not parsed). -/
def parseRat (s : String) : Option ℚ :=
  let t := pyStripChars s.data
  let sb : ℚ × List Char :=
    match t with
    | '-' :: rest => (-1, rest)
    | '+' :: rest => (1, rest)
    | _ => (1, t)
  match splitChar '.' sb.2 with
  | [w] =>
    if w.isEmpty then Option.none
    else (digitsVal w).map (fun n => sb.1 * n)
  | [w, f] =>
    if w.isEmpty && f.isEmpty then Option.none
    else
      match digitsVal w, digitsVal f with
      | some wn, some fn => some (sb.1 * ((wn : ℚ) + (fn : ℚ) / 10 ^ f.length))
      | _, _ => Option.none
  | _ => Option.none

/-- Stage 1: _import_and_setup_dem. -/
def import_and_setup_dem (eng : Engine) (dem_path : String) (s : GState) : StepRes Unit :=
  (run_command eng ⟨"r.in.gdal",
      [("input", dem_path), ("output", "dem"), ("flags", "o")]⟩ s).bind
    (fun _ s => run_command eng ⟨"g.region", [("raster", "dem"), ("flags", "p")]⟩ s)

/-- Stage 2: _run_hydrological_analysis. -/
def run_hydrological_analysis (eng : Engine) (s : GState) : StepRes Unit :=
  (run_command eng ⟨"r.fill.dir",
      [("input", "dem"), ("output", "dem_filled"),
       ("direction", "drain_map_for_outlet")]⟩ s).bind
    (fun _ s =>
      (run_command eng ⟨"r.watershed",
          [("elevation", "dem_filled"), ("accumulation", "flow_acc"),
           ("drainage", "drain_map_for_outlet"), ("threshold", "1")]⟩ s).bind
        (fun _ s =>
          .ok () (logMsg "debug" "Traitements hydrologiques de base terminés" s)))

/-- Stage 3: _calculate_threshold inside the orchestrator — parse the
region, then the pure conversion calculate_threshold; a zero cell area is
a Python ZeroDivisionError. -/
def calculate_threshold_grass (eng : Engine) (threshold_km2 : ℚ) (s : GState) :
    StepRes ℤ :=
  (parse_command_region eng s).bind (fun r s =>
    if r.1 * r.2 = 0 then .err (.zeroDivisionError "float division by zero") s
    else
      .ok (calculate_threshold threshold_km2 r.1 r.2)
        (logMsg "info" "Seuil d\x27accumulation: %d cellules (%.2f km²)" s))

/-- Stage 4: _extract_stream_network. -/
def extract_stream_network (eng : Engine) (threshold : ℤ) (s : GState) : StepRes Unit :=
  run_command eng ⟨"r.stream.extract",
    [("elevation", "dem_filled"), ("accumulation", "flow_acc"),
     ("threshold", toString threshold), ("stream_rast", "streams"),
     ("stream_vect", "rivieres")]⟩ s

/-- Stage 5: _process_input_point — transform the WGS84 point (the pyproj
Transformer built from the two EPSG codes is the engine's transform
field), write the CSV, import it, run the nearest-stream query and parse
the snapped coordinates from the second output line; fewer than two lines
is the domain GrassError. -/
def process_input_point (eng : Engine) (lat lon : ℚ) (base_path : String)
    (s : GState) : StepRes (ℚ × ℚ) :=
  let proj := eng.transform lon lat
  let csv_path := pyDirname base_path ++ "/input_point_proj.csv"
  let content := "x,y,name\n" ++ toString proj.1 ++ "," ++ toString proj.2 ++
    ",input_location\n"
  let s0 := { s with filesWritten := s.filesWritten ++ [(csv_path, content)] }
  (run_command eng ⟨"v.in.ascii",
      [("input", csv_path), ("output", "input_point_proj"),
       ("separator", "comma")]⟩ s0).bind (fun _ s =>
  (read_command eng ⟨"v.distance",
      [("from", "input_point_proj"), ("to", "rivieres"),
       ("upload", "dist,to_x,to_y"), ("to_type", "line"), ("flags", "p")]⟩ s).bind
    (fun out s =>
      let lines := pySplitlines (pyStrip (out.getD ""))
      if lines.length < 2 then
        .err (.grassError "Aucun cours d\x27eau trouvé à proximité du point d\x27entrée") s
      else
        let parts := (splitChar '|' (lines.getD 1 "").data).map
          (fun l => (⟨l⟩ : String))
        match parts.get? 2 with
        | Option.none => .err (.indexError "list index out of range") s
        | some p2 =>
          match parseRat p2 with
          | Option.none => .err (.valueError "could not convert string to float") s
          | some x =>
            match parts.get? 3 with
            | Option.none => .err (.indexError "list index out of range") s
            | some p3 =>
              match parseRat p3 with
              | Option.none =>
                .err (.valueError "could not convert string to float") s
              | some y =>
                .ok (x, y) (logMsg "info" "Exutoire ajusté: (%.2f, %.2f)" s)))

/-- Stage 6: _delineate_watershed. -/
def delineate_watershed (eng : Engine) (x y : ℚ) (s : GState) : StepRes Unit :=
  (run_command eng ⟨"r.water.outlet",
      [("input", "drain_map_for_outlet"), ("output", "main_basin"),
       ("coordinates", toString x ++ "," ++ toString y)]⟩ s).bind
    (fun _ s => run_command eng ⟨"r.to.vect",
      [("input", "main_basin"), ("output", "main_basin_vect"),
       ("type", "area"), ("flags", "s")]⟩ s)

/-- Fixed SWAT outlet attribute schema of _prepare_swat_outlet. -/
def swatColumns : List (String × String) :=
  [("PointId", "1"), ("RES", "0"), ("INLET", "0"), ("ID", "1"), ("PTSOURCE", "0")]

/-- Attribute-update loop of _prepare_swat_outlet. -/
def update_swat_columns (eng : Engine) : List (String × String) → GState → StepRes Unit
  | [], s => .ok () s
  | (col, val) :: rest, s =>
    (run_command eng ⟨"v.db.update",
        [("map", "outlet_point"), ("column", col), ("value", val)]⟩ s).bind
      (fun _ s => update_swat_columns eng rest s)

/-- Stage 7: _prepare_swat_outlet. -/
def prepare_swat_outlet (eng : Engine) (x y : ℚ) (base_path : String)
    (s : GState) : StepRes Unit :=
  let csv_path := pyDirname base_path ++ "/outlet_point_swat.csv"
  let content := "x,y,PointId,RES,INLET,ID,PTSOURCE\n" ++
    toString x ++ "," ++ toString y ++ ",1,0,0,1,0\n"
  let s0 := { s with filesWritten := s.filesWritten ++ [(csv_path, content)] }
  (run_command eng ⟨"v.in.ascii",
      [("input", csv_path), ("output", "outlet_point"),
       ("separator", "comma")]⟩ s0).bind (fun _ s =>
  (run_command eng ⟨"v.db.addcolumn",
      [("map", "outlet_point"),
       ("columns", String.intercalate ","
         (swatColumns.map (fun p => p.1 ++ " INTEGER")))]⟩ s).bind
    (fun _ s => update_swat_columns eng swatColumns s))

/-- Stage 8: _post_processing. -/
def post_processing (eng : Engine) (s : GState) : StepRes Unit :=
  (run_command eng ⟨"v.extract",
      [("input", "rivieres"), ("type", "line"),
       ("output", "rivieres_only_lines")]⟩ s).bind (fun _ s =>
  (run_command eng ⟨"v.build", [("map", "rivieres_only_lines")]⟩ s).bind (fun _ s =>
  (run_command eng ⟨"v.dissolve",
      [("input", "main_basin_vect"), ("output", "main_basin_diss"),
       ("column", "cat")]⟩ s).bind (fun _ s =>
  (run_command eng ⟨"v.clip",
      [("input", "rivieres_only_lines"), ("clip", "main_basin_diss"),
       ("output", "rivieres_clipped")]⟩ s).bind (fun _ s =>
  (run_command eng ⟨"v.select",
      [("ainput", "outlet_point"), ("binput", "main_basin_diss"),
       ("output", "outlet_point_clipped"), ("operator", "within")]⟩ s).bind (fun _ s =>
  (run_command eng ⟨"r.mask", [("vector", "main_basin_diss")]⟩ s).bind (fun _ s =>
  (run_command eng ⟨"r.mapcalc",
      [("expression", "dem_filled_masked=dem_filled")]⟩ s).bind (fun _ s =>
  (run_command eng ⟨"r.mask", [("flags", "r")]⟩ s).bind (fun _ s =>
  .ok () (logMsg "debug" "Post-traitement terminé (silencieux)." s)))))))))

/-- Body of the try block of analyse_hydro_grass: stages 1 to 8 in strict
order, returning the adjusted outlet coordinates. -/
def analyse_body (eng : Engine) (cleaned_dem_path : String)
    (lat lon threshold_km2 : ℚ) (s : GState) : StepRes (ℚ × ℚ) :=
  (import_and_setup_dem eng cleaned_dem_path s).bind (fun _ s =>
  (run_hydrological_analysis eng s).bind (fun _ s =>
  (calculate_threshold_grass eng threshold_km2 s).bind (fun seuil s =>
  (extract_stream_network eng seuil s).bind (fun _ s =>
  (process_input_point eng lat lon cleaned_dem_path s).bind (fun p s =>
  (delineate_watershed eng p.1 p.2 s).bind (fun _ s =>
  (prepare_swat_outlet eng p.1 p.2 cleaned_dem_path s).bind (fun _ s =>
  (post_processing eng s).bind (fun _ s =>
  .ok p s))))))))

/-- Embedding of analyse_hydro_grass from hydro_analysis.py: the try body
with its two exception handlers — a GrassError is logged at error level
and re-raised unchanged, any other exception is logged at critical level
and re-raised wrapped in RuntimeError. -/
def analyse_hydro_grass (eng : Engine) (cleaned_dem_path : String)
    (lat lon threshold_km2 : ℚ) (s : GState) : StepRes (ℚ × ℚ) :=
  match analyse_body eng cleaned_dem_path lat lon threshold_km2 s with
  | .ok p s => .ok p s
  | .err (.grassError m) s =>
    .err (.grassError m)
      (logMsg "error" ("Erreur GRASS dans l\x27analyse hydrologique: " ++ m) s)
  | .err e s =>
    .err (.runtimeError ("Échec de l\x27analyse hydrologique: " ++ e.msg))
      (logMsg "critical" ("Erreur inattendue dans l\x27analyse hydrologique: " ++ e.msg) s)

/-- Initial session state of a run: nothing invoked, no mask installed. -/
def initState : GState := ⟨[], Option.none, [], []⟩

/-- Engine on which every module invocation succeeds, the region is a
30 m grid, and the stream query prints nothing (no data row). -/
def engOK : Engine :=
  { fails := fun _ => Option.none
    region_ewres := 30
    region_nsres := 30
    v_distance_out := some ""
    transform := fun x y => (x, y) }

/-- Engine whose first invocation (the DEM import) raises GrassError. -/
def engGrassFail : Engine :=
  { fails := fun n => if n = "r.in.gdal" then some "boom" else Option.none
    region_ewres := 30
    region_nsres := 30
    v_distance_out := some ""
    transform := fun x y => (x, y) }

/-! ## Theorems -/

/-! ## Lemmas about the config dict model -/

/-- Lookup in a graph-shaped association list built over a key list. -/
theorem lookupVal_map_key (f : String → PyVal) (ks : List String) (k : String) :
    lookupVal (ks.map (fun x => (x, f x))) k =
      if k ∈ ks then some (f k) else Option.none := by
  induction ks with
  | nil => simp [lookupVal]
  | cons a t ih =>
    simp only [List.map_cons, lookupVal]
    by_cases h : a = k
    · subst h
      simp
    · rw [if_neg h, ih]
      by_cases hk : k ∈ t
      · rw [if_pos hk, if_pos (List.mem_cons_of_mem _ hk)]
      · rw [if_neg hk, if_neg (by
          simp only [List.mem_cons, hk, or_false]
          exact fun hh => h hh.symm)]

/-- Lookup misses exactly outside the key list. -/
theorem lookupVal_eq_none (m : List (String × PyVal)) (k : String)
    (h : k ∉ configKeys m) : lookupVal m k = Option.none := by
  induction m with
  | nil => rfl
  | cons p t ih =>
    simp only [configKeys, List.map_cons, List.mem_cons, not_or] at h
    simp only [lookupVal, if_neg (fun hh : p.1 = k => h.1 hh.symm)]
    exact ih h.2

/-- Pointwise description of merge_configs: for every key, the merged
mapping reads the user value exactly when it is valid, and the default
value otherwise (with Python None for keys absent from both). -/
theorem pyGet_merge (u d : List (String × PyVal)) (k : String) :
    pyGet (merge_configs u d) k =
      if is_valid_config_value (pyGet u k) then pyGet u k else pyGet d k := by
  unfold merge_configs
  rw [show pyGet
        (((configKeys d ++ configKeys u).dedup).map
          (fun x => (x, if is_valid_config_value (pyGet u x) then pyGet u x
                        else pyGet d x))) k =
      (lookupVal (((configKeys d ++ configKeys u).dedup).map
          (fun x => (x, if is_valid_config_value (pyGet u x) then pyGet u x
                        else pyGet d x))) k).getD .none from rfl]
  rw [lookupVal_map_key
      (fun x => if is_valid_config_value (pyGet u x) then pyGet u x else pyGet d x)]
  by_cases hk : k ∈ (configKeys d ++ configKeys u).dedup
  · rw [if_pos hk]
    rfl
  · rw [if_neg hk]
    rw [List.mem_dedup, List.mem_append] at hk
    push_neg at hk
    have hu : pyGet u k = PyVal.none := by
      rw [pyGet, lookupVal_eq_none u k hk.2]
      rfl
    have hd : pyGet d k = PyVal.none := by
      rw [pyGet, lookupVal_eq_none d k hk.1]
      rfl
    rw [hu, hd]
    rfl

/-- C5: in the configuration merge, for every key, a user value that is an
empty string, blank after trimming, an empty collection, or absent (which
includes an explicit None) falls back to the default value for that key,
while a user value of 0 (non-empty, valid) is kept and never falls back. -/
theorem merge_empty_falls_back_zero_kept (u d : List (String × PyVal)) (k : String) :
    ((pyGet u k = PyVal.none ∨ (∃ s, pyGet u k = PyVal.str s ∧ pyStrip s = "") ∨
        pyGet u k = PyVal.list [] ∨ pyGet u k = PyVal.dict []) →
      pyGet (merge_configs u d) k = pyGet d k) ∧
    (pyGet u k = PyVal.int 0 → pyGet (merge_configs u d) k = PyVal.int 0) := by
  constructor
  · intro h
    rw [pyGet_merge]
    have hv : is_valid_config_value (pyGet u k) = false := by
      rcases h with h | ⟨s, hs, hstrip⟩ | h | h
      · rw [h]
        rfl
      · rw [hs]
        simp only [is_valid_config_value, hstrip]
        rfl
      · rw [h]
        rfl
      · rw [h]
        rfl
    simp [hv]
  · intro h
    rw [pyGet_merge, h]
    rfl

/-- Witness for C5 at concrete configurations: an empty-string user value
for key a falls back to the default, a zero user value for key b is kept. -/
theorem merge_empty_falls_back_zero_kept_witness :
    pyGet (merge_configs [("a", PyVal.str ""), ("b", PyVal.int 0)]
        [("a", PyVal.str "dflt")]) "a" = pyGet [("a", PyVal.str "dflt")] "a" ∧
    pyGet (merge_configs [("a", PyVal.str ""), ("b", PyVal.int 0)]
        [("a", PyVal.str "dflt")]) "b" = PyVal.int 0 :=
  ⟨(merge_empty_falls_back_zero_kept _ _ "a").1 (Or.inr (Or.inl ⟨"", rfl, rfl⟩)),
   (merge_empty_falls_back_zero_kept _ _ "b").2 rfl⟩

/-- C10: the merged configuration binds exactly the union of the two key
sets, and a key whose user value is invalid and which is absent from the
default mapping is still present in the result, bound to None. -/
theorem merge_configs_keys_union (u d : List (String × PyVal)) (k : String) :
    (k ∈ configKeys (merge_configs u d) ↔ k ∈ configKeys u ∨ k ∈ configKeys d) ∧
    (k ∈ configKeys u → is_valid_config_value (pyGet u k) = false →
      k ∉ configKeys d → (k, PyVal.none) ∈ merge_configs u d) := by
  constructor
  · unfold merge_configs configKeys
    simp only [List.map_map, Function.comp]
    simp [List.mem_dedup, List.mem_append, or_comm, configKeys]
  · intro hku hvalid hkd
    unfold merge_configs
    apply List.mem_map.mpr
    refine ⟨k, ?_, ?_⟩
    · rw [List.mem_dedup, List.mem_append]
      exact Or.inr hku
    · have hd : pyGet d k = PyVal.none := by
        rw [pyGet, lookupVal_eq_none d k hkd]
        rfl
      simp [hvalid, hd]

/-- Witness for C10: a user key bound to None and absent from the default
appears in the merged result bound to None, and the key set is the union. -/
theorem merge_configs_keys_union_witness :
    ("a" ∈ configKeys (merge_configs [("a", PyVal.none)] []) ↔
      "a" ∈ configKeys [("a", PyVal.none)] ∨
      "a" ∈ configKeys ([] : List (String × PyVal))) ∧
    ("a", PyVal.none) ∈ merge_configs [("a", PyVal.none)] [] :=
  ⟨(merge_configs_keys_union _ _ "a").1,
   (merge_configs_keys_union _ _ "a").2 (by decide) rfl (by decide)⟩

/-- C9 counterexample: the string " $\x7benv:HOME\x7d" (leading blank) does
not match the exact environment-variable form, yet the loader does not pass
it through unchanged — it is resolved, because the code trims the value
before matching.  This refutes the claim that every non-matching string is
passed through unchanged. -/
theorem resolve_env_vars_strips_cex :
    envVarMatch " $\x7benv:HOME\x7d" = Option.none ∧
    resolve_env_vars (fun _ => some "/home/u") (PyVal.str " $\x7benv:HOME\x7d")
      ≠ PyVal.str " $\x7benv:HOME\x7d" := by
  constructor
  · rfl
  · intro h
    rw [show resolve_env_vars (fun _ => some "/home/u")
          (PyVal.str " $\x7benv:HOME\x7d") = PyVal.str "/home/u" from rfl] at h
    injection h with h2
    exact absurd h2 (by decide)

/-- C9 amended: every string value that MATCHES AFTER TRIMMING surrounding
whitespace the form $\x7benv:NAME\x7d is replaced by the named process
environment variable value (empty string if unset); every string whose
trimmed form does not match, and every non-string value, is passed through
unchanged. -/
theorem resolve_env_vars_spec (env : String → Option String) (v : PyVal) :
    (∀ s name, v = PyVal.str s → envVarMatch (pyStrip s) = some name →
      resolve_env_vars env v = PyVal.str ((env name).getD "")) ∧
    (∀ s, v = PyVal.str s → envVarMatch (pyStrip s) = Option.none →
      resolve_env_vars env v = v) ∧
    ((∀ s, v ≠ PyVal.str s) → resolve_env_vars env v = v) := by
  refine ⟨?_, ?_, ?_⟩
  · intro s name hv hm
    subst hv
    simp [resolve_env_vars, hm]
  · intro s hv hm
    subst hv
    simp [resolve_env_vars, hm]
  · intro h
    cases v with
    | str s => exact absurd rfl (h s)
    | none => rfl
    | bool b => rfl
    | int n => rfl
    | float q => rfl
    | list l => rfl
    | dict l => rfl

/-- Witness for C9 amended: a matching string is replaced by the variable
value, and a non-string value passes through. -/
theorem resolve_env_vars_spec_witness :
    resolve_env_vars (fun n => if n = "FOO" then some "bar" else Option.none)
        (PyVal.str "$\x7benv:FOO\x7d") =
      PyVal.str (((fun n => if n = "FOO" then some "bar" else Option.none)
        "FOO").getD "") ∧
    resolve_env_vars (fun n => if n = "FOO" then some "bar" else Option.none)
        (PyVal.int 5) = PyVal.int 5 :=
  ⟨(resolve_env_vars_spec _ _).1 "$\x7benv:FOO\x7d" "FOO" rfl rfl,
   (resolve_env_vars_spec _ _).2.2 (fun _ h => PyVal.noConfusion h)⟩

/-- Filtering to valid values preserves the first binding of a key when
that binding is valid. -/
theorem lookupVal_filter_valid (cfg : List (String × PyVal)) (k : String)
    (v : PyVal) (h : lookupVal cfg k = some v)
    (hv : is_valid_config_value v = true) :
    lookupVal (save_config cfg) k = some v := by
  induction cfg with
  | nil => exact absurd h (by simp [lookupVal])
  | cons p t ih =>
    rw [save_config, List.filter_cons]
    by_cases hk : p.1 = k
    · simp only [lookupVal, if_pos hk] at h
      have hpv : p.2 = v := Option.some.inj h
      rw [hpv, if_pos hv]
      simp [lookupVal, hk, hpv]
    · simp only [lookupVal, if_neg hk] at h
      by_cases hp : is_valid_config_value p.2 = true
      · rw [if_pos hp]
        simp only [lookupVal, if_neg hk]
        exact ih h
      · rw [if_neg hp]
        exact ih h

/-- Loading maps lookup results through environment resolution. -/
theorem lookupVal_load (env : String → Option String)
    (m : List (String × PyVal)) (k : String) :
    lookupVal (load_single_config env m) k =
      (lookupVal m k).map (resolve_env_vars env) := by
  induction m with
  | nil => rfl
  | cons p t ih =>
    simp only [load_single_config, List.map_cons, lookupVal]
    by_cases hk : p.1 = k
    · simp [hk]
    · simp only [if_neg hk]
      simpa [load_single_config] using ih

/-- C7 counterexample: a configuration whose OUTPUT_DIR field is the
literal string "$\x7benv:X\x7d" does not survive the save/reload round
trip when the variable X is unset — reloading resolves it to the empty
string, which the merge then treats as missing, so the recovered value is
None rather than the original string.  This refutes the claim that every
originally-set field is recovered unchanged. -/
theorem save_then_reload_cex :
    pyGet (save_then_reload (fun _ => Option.none)
        [("OUTPUT_DIR", PyVal.str "$\x7benv:X\x7d")]) "OUTPUT_DIR" = PyVal.none ∧
    (PyVal.none : PyVal) ≠ PyVal.str "$\x7benv:X\x7d" := by
  constructor
  · rfl
  · intro h
    exact PyVal.noConfusion h

/-- C7 amended: every configuration field that is set to a valid value
(per the merge validity rule: non-None, non-blank, non-empty-collection)
which the environment-variable resolution leaves unchanged is recovered
unchanged by saving to YAML and reloading merged against an empty
default. -/
theorem save_then_reload_recovers (env : String → Option String)
    (cfg : List (String × PyVal)) (k : String) (v : PyVal)
    (hfound : lookupVal cfg k = some v)
    (hvalid : is_valid_config_value v = true)
    (hstable : resolve_env_vars env v = v) :
    pyGet (save_then_reload env cfg) k = v := by
  unfold save_then_reload
  rw [pyGet_merge]
  have h1 : lookupVal (save_config cfg) k = some v :=
    lookupVal_filter_valid cfg k v hfound hvalid
  have h2 : pyGet (load_single_config env (save_config cfg)) k = v := by
    rw [pyGet, lookupVal_load, h1]
    simp [hstable]
  rw [h2]
  simp [hvalid]

/-- Witness for C7 amended: a plain string field survives the round trip. -/
theorem save_then_reload_recovers_witness :
    pyGet (save_then_reload (fun _ => Option.none)
        [("SITE_NAME", PyVal.str "site")]) "SITE_NAME" = PyVal.str "site" :=
  save_then_reload_recovers (fun _ => Option.none) _ "SITE_NAME"
    (PyVal.str "site") rfl rfl rfl

/-- C1 counterexample: at 1000 m × 1000 m resolution with threshold
1.9 km², the cell ratio is 1.9; the code truncates it to 1 cell while the
claimed rounding formula gives 2 cells, so the conversion does not return
max(1, round(threshold_km2 × 1,000,000 / (ewres × nsres))). -/
theorem calculate_threshold_cex :
    calculate_threshold (19/10) 1000 1000 = 1 ∧
    spec_threshold_cells (19/10) 1000 1000 = 2 := by
  constructor
  · show max 1 (pyInt ((19:ℚ)/10 * 1000000 / ((1000:ℚ) * 1000))) = 1
    rw [pyInt, if_pos (by norm_num)]
    have hf : ⌊(19:ℚ)/10 * 1000000 / ((1000:ℚ) * 1000)⌋ = 1 := by
      norm_num [Int.floor_eq_iff]
    rw [hf]
    omega
  · show max 1 (round ((19:ℚ)/10 * 1000000 / ((1000:ℚ) * 1000))) = 2
    rw [round_eq]
    have hf : ⌊(19:ℚ)/10 * 1000000 / ((1000:ℚ) * 1000) + 1/2⌋ = 2 := by
      norm_num [Int.floor_eq_iff]
    rw [hf]
    omega

/-- C1 amended: for positive resolutions the threshold conversion returns
max(1, int(threshold_km2 × 1,000,000 / (ewres × nsres))) where int is
Python truncation toward zero (equal to floor for the nonnegative ratios
that occur); in particular with 30 m × 30 m resolution and threshold
1.0 km² it returns 1111, with threshold 0 km² it returns 1, and it is
always at least 1, never 0. -/
theorem calculate_threshold_spec (t e n : ℚ) (he : 0 < e) (hn : 0 < n) :
    calculate_threshold t e n = max 1 (pyInt (t * 1000000 / (e * n))) ∧
    1 ≤ calculate_threshold t e n ∧
    (0 ≤ t → calculate_threshold t e n = max 1 ⌊t * 1000000 / (e * n)⌋) ∧
    calculate_threshold 1 30 30 = 1111 ∧
    calculate_threshold 0 e n = 1 := by
  refine ⟨rfl, le_max_left _ _, ?_, ?_, ?_⟩
  · intro ht
    show max 1 (pyInt (t * 1000000 / (e * n))) = max 1 ⌊t * 1000000 / (e * n)⌋
    rw [pyInt, if_pos]
    positivity
  · show max 1 (pyInt ((1:ℚ) * 1000000 / ((30:ℚ) * 30))) = 1111
    rw [pyInt, if_pos (by norm_num)]
    have hf : ⌊(1:ℚ) * 1000000 / ((30:ℚ) * 30)⌋ = 1111 := by
      norm_num [Int.floor_eq_iff]
    rw [hf]
    omega
  · show max 1 (pyInt ((0:ℚ) * 1000000 / (e * n))) = 1
    rw [zero_mul, zero_div, pyInt, if_pos le_rfl, Int.floor_zero]
    omega

/-- Witness for C1 amended at the 30 m × 30 m, 1.0 km² input. -/
theorem calculate_threshold_spec_witness :
    (0:ℚ) < 30 ∧ calculate_threshold 1 30 30 = 1111 :=
  ⟨by norm_num, (calculate_threshold_spec 1 30 30 (by norm_num) (by norm_num)).2.2.2.1⟩

/-- C6: the bbox calculator computes exactly the spec formula, and at
latitude 0 with half-width 111 km the box is (lon−1, lat−1, lon+1, lat+1)
exactly (the floating tolerance of the claim is not needed in the exact
model). -/
theorem calculate_bbox_wgs84_formula :
    (∀ lat lon size_km : ℝ,
      calculate_bbox_wgs84 lat lon size_km = spec_bbox lat lon size_km) ∧
    (∀ lon : ℝ, calculate_bbox_wgs84 0 lon 111 = (lon - 1, 0 - 1, lon + 1, 0 + 1)) := by
  constructor
  · intro lat lon s
    show (lon - s / (EARTH_DEGREE_KM * max (Real.cos (lat * (Real.pi / 180))) 0.01),
          lat - s / EARTH_DEGREE_KM,
          lon + s / (EARTH_DEGREE_KM * max (Real.cos (lat * (Real.pi / 180))) 0.01),
          lat + s / EARTH_DEGREE_KM) = spec_bbox lat lon s
    rw [spec_bbox, EARTH_DEGREE_KM]
    norm_num
  · intro lon
    show (lon - 111 / (EARTH_DEGREE_KM * max (Real.cos (0 * (Real.pi / 180))) 0.01),
          (0:ℝ) - 111 / EARTH_DEGREE_KM,
          lon + 111 / (EARTH_DEGREE_KM * max (Real.cos (0 * (Real.pi / 180))) 0.01),
          (0:ℝ) + 111 / EARTH_DEGREE_KM) = (lon - 1, 0 - 1, lon + 1, 0 + 1)
    rw [zero_mul, Real.cos_zero, EARTH_DEGREE_KM,
      max_eq_left (by norm_num : (0.01:ℝ) ≤ 1)]
    norm_num

/-- C4 counterexample: at half-width 0 (allowed by the claim, which
quantifies over all half-widths ≥ 0) the box degenerates — west equals
east — so the claimed strict inequality west < east fails. -/
theorem calculate_bbox_wgs84_cex :
    ¬ ((calculate_bbox_wgs84 0 0 0).1 < (calculate_bbox_wgs84 0 0 0).2.2.1) := by
  show ¬ ((0:ℝ) - 0 / (EARTH_DEGREE_KM * max (Real.cos (0 * (Real.pi / 180))) 0.01) <
          0 + 0 / (EARTH_DEGREE_KM * max (Real.cos (0 * (Real.pi / 180))) 0.01))
  rw [zero_div]
  norm_num

/-- Positivity of the longitude denominator 111 × max(cos −, 0.01). -/
theorem bbox_denominator_pos (lat : ℝ) :
    0 < EARTH_DEGREE_KM * max (Real.cos (lat * (Real.pi / 180))) 0.01 := by
  have h1 : (0.01:ℝ) ≤ max (Real.cos (lat * (Real.pi / 180))) 0.01 := le_max_right _ _
  have h2 : (0:ℝ) < 0.01 := by norm_num
  have h3 : (0:ℝ) < EARTH_DEGREE_KM := by rw [EARTH_DEGREE_KM]; norm_num
  exact mul_pos h3 (lt_of_lt_of_le h2 h1)

/-- C4 amended: for strictly positive half-widths (the claimed bound ≥ 0
admits the degenerate half-width 0, where west = east and south = north)
and latitudes in (−90, 90), the bbox calculator returns west < east and
south < north; and for all half-widths ≥ 0 the longitude span east − west
is monotonically non-decreasing in |latitude|. -/
theorem calculate_bbox_wgs84_order_monotone :
    (∀ lat lon size_km : ℝ, 0 < size_km → -90 < lat → lat < 90 →
      (calculate_bbox_wgs84 lat lon size_km).1 <
        (calculate_bbox_wgs84 lat lon size_km).2.2.1 ∧
      (calculate_bbox_wgs84 lat lon size_km).2.1 <
        (calculate_bbox_wgs84 lat lon size_km).2.2.2) ∧
    (∀ lat₁ lat₂ lon size_km : ℝ, 0 ≤ size_km →
      -90 < lat₁ → lat₁ < 90 → -90 < lat₂ → lat₂ < 90 → |lat₁| ≤ |lat₂| →
      (calculate_bbox_wgs84 lat₁ lon size_km).2.2.1 -
        (calculate_bbox_wgs84 lat₁ lon size_km).1 ≤
      (calculate_bbox_wgs84 lat₂ lon size_km).2.2.1 -
        (calculate_bbox_wgs84 lat₂ lon size_km).1) := by
  constructor
  · intro lat lon s hs h1 h2
    constructor
    · show lon - s / (EARTH_DEGREE_KM * max (Real.cos (lat * (Real.pi / 180))) 0.01) <
           lon + s / (EARTH_DEGREE_KM * max (Real.cos (lat * (Real.pi / 180))) 0.01)
      have hd : 0 < s / (EARTH_DEGREE_KM * max (Real.cos (lat * (Real.pi / 180))) 0.01) :=
        div_pos hs (bbox_denominator_pos lat)
      linarith
    · show lat - s / EARTH_DEGREE_KM < lat + s / EARTH_DEGREE_KM
      have hd : 0 < s / EARTH_DEGREE_KM :=
        div_pos hs (by rw [EARTH_DEGREE_KM]; norm_num)
      linarith
  · intro lat₁ lat₂ lon s hs h11 h12 h21 h22 habs
    show (lon + s / (EARTH_DEGREE_KM * max (Real.cos (lat₁ * (Real.pi / 180))) 0.01)) -
           (lon - s / (EARTH_DEGREE_KM * max (Real.cos (lat₁ * (Real.pi / 180))) 0.01)) ≤
         (lon + s / (EARTH_DEGREE_KM * max (Real.cos (lat₂ * (Real.pi / 180))) 0.01)) -
           (lon - s / (EARTH_DEGREE_KM * max (Real.cos (lat₂ * (Real.pi / 180))) 0.01))
    have hpi : (0:ℝ) < Real.pi := Real.pi_pos
    have h180 : (0:ℝ) < Real.pi / 180 := by positivity
    have habs2 : |lat₂| ≤ 90 := by
      rw [abs_le]
      constructor <;> linarith
    have hc : Real.cos (lat₂ * (Real.pi / 180)) ≤ Real.cos (lat₁ * (Real.pi / 180)) := by
      have e1 : Real.cos (lat₁ * (Real.pi / 180)) =
          Real.cos (|lat₁| * (Real.pi / 180)) := by
        rw [← Real.cos_abs (lat₁ * (Real.pi / 180)), abs_mul, abs_of_pos h180]
      have e2 : Real.cos (lat₂ * (Real.pi / 180)) =
          Real.cos (|lat₂| * (Real.pi / 180)) := by
        rw [← Real.cos_abs (lat₂ * (Real.pi / 180)), abs_mul, abs_of_pos h180]
      rw [e1, e2]
      apply Real.cos_le_cos_of_nonneg_of_le_pi
      · positivity
      · calc |lat₂| * (Real.pi / 180) ≤ 90 * (Real.pi / 180) :=
              mul_le_mul_of_nonneg_right habs2 (le_of_lt h180)
          _ = Real.pi / 2 := by ring
          _ ≤ Real.pi := by linarith
      · exact mul_le_mul_of_nonneg_right habs (le_of_lt h180)
    have hmax : max (Real.cos (lat₂ * (Real.pi / 180))) 0.01 ≤
        max (Real.cos (lat₁ * (Real.pi / 180))) 0.01 := max_le_max hc le_rfl
    have hp1 := bbox_denominator_pos lat₁
    have hp2 := bbox_denominator_pos lat₂
    have hden : EARTH_DEGREE_KM * max (Real.cos (lat₂ * (Real.pi / 180))) 0.01 ≤
        EARTH_DEGREE_KM * max (Real.cos (lat₁ * (Real.pi / 180))) 0.01 :=
      mul_le_mul_of_nonneg_left hmax (by rw [EARTH_DEGREE_KM]; norm_num)
    have hdlon : s / (EARTH_DEGREE_KM * max (Real.cos (lat₁ * (Real.pi / 180))) 0.01) ≤
        s / (EARTH_DEGREE_KM * max (Real.cos (lat₂ * (Real.pi / 180))) 0.01) := by
      rw [div_le_div_iff₀ hp1 hp2]
      exact mul_le_mul_of_nonneg_left hden hs
    linarith

/-- Witness for C4 amended: a non-degenerate box at the origin, and span
monotonicity between latitudes 0 and 45. -/
theorem calculate_bbox_wgs84_order_monotone_witness :
    ((calculate_bbox_wgs84 0 0 1).1 < (calculate_bbox_wgs84 0 0 1).2.2.1 ∧
     (calculate_bbox_wgs84 0 0 1).2.1 < (calculate_bbox_wgs84 0 0 1).2.2.2) ∧
    ((calculate_bbox_wgs84 0 5 2).2.2.1 - (calculate_bbox_wgs84 0 5 2).1 ≤
     (calculate_bbox_wgs84 45 5 2).2.2.1 - (calculate_bbox_wgs84 45 5 2).1) :=
  ⟨calculate_bbox_wgs84_order_monotone.1 0 0 1 (by norm_num) (by norm_num) (by norm_num),
   calculate_bbox_wgs84_order_monotone.2 0 45 5 2 (by norm_num) (by norm_num)
     (by norm_num) (by norm_num) (by norm_num)
     (by simp)⟩

/-- C3 counterexample: when the engine raises GrassError "boom" at the
first stage, the caller observes that very GrassError — it is not
re-raised as a generic pipeline failure (RuntimeError).  This refutes the
claim that engine errors differ from other exceptions only in logging
granularity and not in the exception the caller observes. -/
theorem engine_error_not_wrapped_cex :
    (∃ s', analyse_hydro_grass engGrassFail "/tmp/dem.tif" 45 5 1 initState =
        .err (.grassError "boom") s') ∧
    ¬ (∃ m s', analyse_hydro_grass engGrassFail "/tmp/dem.tif" 45 5 1 initState =
        .err (.runtimeError m) s') := by
  have h : ∃ s', analyse_hydro_grass engGrassFail "/tmp/dem.tif" 45 5 1 initState =
      .err (.grassError "boom") s' := ⟨_, rfl⟩
  refine ⟨h, ?_⟩
  rintro ⟨m, s', hm⟩
  obtain ⟨s0, h0⟩ := h
  rw [h0] at hm
  injection hm with he hs
  exact PyErr.noConfusion he

/-- C3 amended: a GrassError raised by the engine at any stage is caught,
logged at error level, and re-raised unchanged; every other exception is
caught, logged at critical level, and re-raised wrapped as the generic
pipeline RuntimeError; and the handler performs no retry — the trace of
engine invocations of the whole call equals the trace of the single pass
over the stages. -/
theorem engine_error_policy (eng : Engine) (dem : String) (lat lon t : ℚ)
    (s : GState) :
    (∀ m s', analyse_body eng dem lat lon t s = .err (.grassError m) s' →
      analyse_hydro_grass eng dem lat lon t s =
        .err (.grassError m)
          (logMsg "error" ("Erreur GRASS dans l\x27analyse hydrologique: " ++ m) s')) ∧
    (∀ e s', analyse_body eng dem lat lon t s = .err e s' →
      (∀ m, e ≠ .grassError m) →
      analyse_hydro_grass eng dem lat lon t s =
        .err (.runtimeError ("Échec de l\x27analyse hydrologique: " ++ e.msg))
          (logMsg "critical"
            ("Erreur inattendue dans l\x27analyse hydrologique: " ++ e.msg) s')) ∧
    ((analyse_hydro_grass eng dem lat lon t s).state.trace =
      (analyse_body eng dem lat lon t s).state.trace) := by
  refine ⟨?_, ?_, ?_⟩
  · intro m s' h
    unfold analyse_hydro_grass
    rw [h]
  · intro e s' h hne
    unfold analyse_hydro_grass
    rw [h]
    cases e with
    | grassError m => exact absurd rfl (hne m)
    | valueError m => rfl
    | indexError m => rfl
    | zeroDivisionError m => rfl
    | runtimeError m => rfl
  · unfold analyse_hydro_grass
    cases hb : analyse_body eng dem lat lon t s with
    | ok p s' => rfl
    | err e s' => cases e <;> rfl

/-- Witness for C3 amended: the GrassError branch applied to the failing
engine at a concrete input. -/
theorem engine_error_policy_witness :
    analyse_hydro_grass engGrassFail "/tmp/dem.tif" 45 5 1 initState =
      .err (.grassError "boom")
        (logMsg "error" ("Erreur GRASS dans l\x27analyse hydrologique: " ++ "boom")
          (analyse_body engGrassFail "/tmp/dem.tif" 45 5 1 initState).state) :=
  (engine_error_policy engGrassFail "/tmp/dem.tif" 45 5 1 initState).1 "boom"
    (analyse_body engGrassFail "/tmp/dem.tif" 45 5 1 initState).state rfl

/-- C8: when the engine completes post-processing, the stage ends with the
three-step mask window — install the dissolved basin as raster mask, copy
the filled elevation through it with r.mapcalc, remove the mask — and the
final mask register is None (the no-mask state the orchestrator ran under
before the stage), so the mask cannot affect subsequent raster reads in
the session. -/
theorem post_processing_mask_restored (eng : Engine) (s : GState)
    (hok : ∀ name, eng.fails name = Option.none) :
    ∃ s', post_processing eng s = .ok () s' ∧
      s'.mask = Option.none ∧
      s'.trace = s.trace ++
        [⟨"v.extract", [("input", "rivieres"), ("type", "line"),
           ("output", "rivieres_only_lines")]⟩,
         ⟨"v.build", [("map", "rivieres_only_lines")]⟩,
         ⟨"v.dissolve", [("input", "main_basin_vect"),
           ("output", "main_basin_diss"), ("column", "cat")]⟩,
         ⟨"v.clip", [("input", "rivieres_only_lines"), ("clip", "main_basin_diss"),
           ("output", "rivieres_clipped")]⟩,
         ⟨"v.select", [("ainput", "outlet_point"), ("binput", "main_basin_diss"),
           ("output", "outlet_point_clipped"), ("operator", "within")]⟩,
         ⟨"r.mask", [("vector", "main_basin_diss")]⟩,
         ⟨"r.mapcalc", [("expression", "dem_filled_masked=dem_filled")]⟩,
         ⟨"r.mask", [("flags", "r")]⟩] ∧
      maskEffect ⟨"r.mask", [("vector", "main_basin_diss")]⟩ s.mask =
        some "main_basin_diss" := by
  have hrun : post_processing eng s = .ok ()
      { trace := s.trace ++
          [⟨"v.extract", [("input", "rivieres"), ("type", "line"),
             ("output", "rivieres_only_lines")]⟩,
           ⟨"v.build", [("map", "rivieres_only_lines")]⟩,
           ⟨"v.dissolve", [("input", "main_basin_vect"),
             ("output", "main_basin_diss"), ("column", "cat")]⟩,
           ⟨"v.clip", [("input", "rivieres_only_lines"), ("clip", "main_basin_diss"),
             ("output", "rivieres_clipped")]⟩,
           ⟨"v.select", [("ainput", "outlet_point"), ("binput", "main_basin_diss"),
             ("output", "outlet_point_clipped"), ("operator", "within")]⟩,
           ⟨"r.mask", [("vector", "main_basin_diss")]⟩,
           ⟨"r.mapcalc", [("expression", "dem_filled_masked=dem_filled")]⟩,
           ⟨"r.mask", [("flags", "r")]⟩],
        mask := Option.none,
        log := s.log ++ [("debug", "Post-traitement terminé (silencieux).")],
        filesWritten := s.filesWritten } := by
    simp only [post_processing, run_command, StepRes.bind, hok, logMsg, maskEffect]
    simp
  exact ⟨_, hrun, rfl, rfl, by simp [maskEffect]⟩

/-- Witness for C8: post-processing on the all-succeeding engine from the
initial state. -/
theorem post_processing_mask_restored_witness :
    ∃ s', post_processing engOK initState = .ok () s' ∧
      s'.mask = Option.none ∧
      s'.trace = initState.trace ++
        [⟨"v.extract", [("input", "rivieres"), ("type", "line"),
           ("output", "rivieres_only_lines")]⟩,
         ⟨"v.build", [("map", "rivieres_only_lines")]⟩,
         ⟨"v.dissolve", [("input", "main_basin_vect"),
           ("output", "main_basin_diss"), ("column", "cat")]⟩,
         ⟨"v.clip", [("input", "rivieres_only_lines"), ("clip", "main_basin_diss"),
           ("output", "rivieres_clipped")]⟩,
         ⟨"v.select", [("ainput", "outlet_point"), ("binput", "main_basin_diss"),
           ("output", "outlet_point_clipped"), ("operator", "within")]⟩,
         ⟨"r.mask", [("vector", "main_basin_diss")]⟩,
         ⟨"r.mapcalc", [("expression", "dem_filled_masked=dem_filled")]⟩,
         ⟨"r.mask", [("flags", "r")]⟩] ∧
      maskEffect ⟨"r.mask", [("vector", "main_basin_diss")]⟩ initState.mask =
        some "main_basin_diss" :=
  post_processing_mask_restored engOK initState (fun _ => rfl)

/-- C2: when every engine invocation succeeds but the nearest-stream
distance query prints no data row (fewer than two output lines, e.g. a
stream layer with no features), the run raises the domain GrassError
"Aucun cours d\x27eau trouvé à proximité du point d\x27entrée" — re-raised
unchanged by the orchestrator — and the watershed-delineation module
r.water.outlet is never invoked in that run. -/
theorem no_stream_error_aborts (eng : Engine) (dem : String) (lat lon t : ℚ)
    (hok : ∀ name, eng.fails name = Option.none)
    (hcell : eng.region_ewres * eng.region_nsres ≠ 0)
    (hout : (pySplitlines (pyStrip ((eng.v_distance_out).getD ""))).length < 2) :
    ∃ s', analyse_hydro_grass eng dem lat lon t initState =
        .err (.grassError "Aucun cours d\x27eau trouvé à proximité du point d\x27entrée") s' ∧
      "r.water.outlet" ∉ s'.trace.map Cmd.name := by
  refine ⟨(analyse_hydro_grass eng dem lat lon t initState).state, ?_, ?_⟩
  · simp only [analyse_hydro_grass, analyse_body, import_and_setup_dem,
      run_hydrological_analysis, calculate_threshold_grass, extract_stream_network,
      process_input_point, parse_command_region, run_command, read_command,
      StepRes.bind, StepRes.state, logMsg, maskEffect, hok, hcell, hout]
    simp [hout]
  · simp only [analyse_hydro_grass, analyse_body, import_and_setup_dem,
      run_hydrological_analysis, calculate_threshold_grass, extract_stream_network,
      process_input_point, parse_command_region, run_command, read_command,
      StepRes.bind, StepRes.state, logMsg, maskEffect, hok, hcell, hout]
    simp [hout, initState]

/-- Witness for C2: the all-succeeding engine whose stream query prints
nothing, at a concrete point and threshold. -/
theorem no_stream_error_aborts_witness :
    ∃ s', analyse_hydro_grass engOK "/tmp/dem.tif" 45 5 1 initState =
        .err (.grassError "Aucun cours d\x27eau trouvé à proximité du point d\x27entrée") s' ∧
      "r.water.outlet" ∉ s'.trace.map Cmd.name :=
  no_stream_error_aborts engOK "/tmp/dem.tif" 45 5 1 (fun _ => rfl)
    (by norm_num [engOK]) (by decide)

/-- Witness for C6: the formula and the concrete box at latitude 0,
longitude 0, half-width 111 km. -/
theorem calculate_bbox_wgs84_formula_witness :
    calculate_bbox_wgs84 0 0 111 = (0 - 1, 0 - 1, 0 + 1, 0 + 1) :=
  calculate_bbox_wgs84_formula.2 0
